import Mathlib

set_option maxRecDepth 10000

/-!
Verification of the amtrak-api client library: the response-shape
decoding layer and the error-classification layer, embedded shallowly.

The repository's `client.rs` and `errors.rs` are embedded directly.  The
`responses` module (entity structs and their serde decode rules) is not
among the repository's files; its definitions below are modelled from the
specification, as their doc comments say.  The JSON parsing / UTF-8
validation collaborators (`serde_json`, `std::str::from_utf8`) are
modelled as executable Lean functions over byte lists.
-/

namespace Amtrak

/-- Bytes of a response body, each in 0..255, as `reqwest::Response::bytes`
delivers them. -/
abbrev Body := List Nat

/-- Exact decimal model of a JSON number literal: `mant * 10 ^ exp`.
`serde_json` parses numbers from their decimal digits; two equal literals
always decode to equal values, which is all the claims need. -/
structure DecimalNum where
  mant : Int
  exp : Int
deriving DecidableEq, Repr

/-- JSON values, the output of the parsing collaborator (`serde_json`).
Object fields keep their textual order; a duplicate key is kept too, and
lookups see the first occurrence. -/
inductive Json where
  | null
  | bool (b : Bool)
  | num (n : DecimalNum)
  | str (s : String)
  | arr (elems : List Json)
  | obj (fields : List (String × Json))
deriving Repr

/-- Continuation byte of a UTF-8 sequence: 0x80..0xBF. -/
def isCont (b : Nat) : Bool := 128 ≤ b && b ≤ 191

/-- Decode one UTF-8 scalar value from the front of a byte list, exactly the
sequences `std::str::from_utf8` accepts (no overlong forms, no surrogates,
nothing above U+10FFFF). -/
def utf8DecodeOne : List Nat → Option (Char × List Nat)
  | [] => none
  | b :: rest =>
    if b ≤ 127 then
      some (Char.ofNat b, rest)
    else if 194 ≤ b && b ≤ 223 then
      match rest with
      | b2 :: r =>
        if isCont b2 then some (Char.ofNat ((b - 192) * 64 + (b2 - 128)), r) else none
      | [] => none
    else if b == 224 then
      match rest with
      | b2 :: b3 :: r =>
        if (160 ≤ b2 && b2 ≤ 191) && isCont b3 then
          some (Char.ofNat ((b - 224) * 4096 + (b2 - 128) * 64 + (b3 - 128)), r)
        else none
      | _ => none
    else if (225 ≤ b && b ≤ 236) || (238 ≤ b && b ≤ 239) then
      match rest with
      | b2 :: b3 :: r =>
        if isCont b2 && isCont b3 then
          some (Char.ofNat ((b - 224) * 4096 + (b2 - 128) * 64 + (b3 - 128)), r)
        else none
      | _ => none
    else if b == 237 then
      match rest with
      | b2 :: b3 :: r =>
        if (128 ≤ b2 && b2 ≤ 159) && isCont b3 then
          some (Char.ofNat ((b - 224) * 4096 + (b2 - 128) * 64 + (b3 - 128)), r)
        else none
      | _ => none
    else if b == 240 then
      match rest with
      | b2 :: b3 :: b4 :: r =>
        if (144 ≤ b2 && b2 ≤ 191) && (isCont b3 && isCont b4) then
          some (Char.ofNat
            ((b - 240) * 262144 + (b2 - 128) * 4096 + (b3 - 128) * 64 + (b4 - 128)), r)
        else none
      | _ => none
    else if 241 ≤ b && b ≤ 243 then
      match rest with
      | b2 :: b3 :: b4 :: r =>
        if isCont b2 && (isCont b3 && isCont b4) then
          some (Char.ofNat
            ((b - 240) * 262144 + (b2 - 128) * 4096 + (b3 - 128) * 64 + (b4 - 128)), r)
        else none
      | _ => none
    else if b == 244 then
      match rest with
      | b2 :: b3 :: b4 :: r =>
        if (128 ≤ b2 && b2 ≤ 143) && (isCont b3 && isCont b4) then
          some (Char.ofNat
            ((b - 240) * 262144 + (b2 - 128) * 4096 + (b3 - 128) * 64 + (b4 - 128)), r)
        else none
      | _ => none
    else none

/-- Fuel-driven loop of `utf8DecodeOne`; the fuel is byte count plus one, and
every step consumes at least one byte, so it never runs dry on its input. -/
def utf8DecodeAux : Nat → List Nat → Option (List Char)
  | _, [] => some []
  | 0, _ :: _ => none
  | fuel + 1, l =>
    match utf8DecodeOne l with
    | some (c, rest) => (utf8DecodeAux fuel rest).map (fun cs => c :: cs)
    | none => none

/-- Model of `std::str::from_utf8` over a whole body: the characters when the
bytes are valid UTF-8, `none` otherwise. -/
def utf8Decode (bytes : Body) : Option (List Char) :=
  utf8DecodeAux (bytes.length + 1) bytes

/-- The string the debugging paths in `client.rs` attach to a decode error:
`std::str::from_utf8(bytes).unwrap_or("Failed to convert bytes to string")`. -/
def bodyText (bytes : Body) : String :=
  match utf8Decode bytes with
  | some cs => String.mk cs
  | none => "Failed to convert bytes to string"

/-- JSON insignificant whitespace: space, tab, line feed, carriage return. -/
def isWsByte (b : Nat) : Bool := b == 32 || b == 9 || b == 10 || b == 13

/-- Drop leading JSON whitespace. -/
def skipWs : List Nat → List Nat
  | [] => []
  | b :: rest => if isWsByte b then skipWs rest else b :: rest

/-- ASCII decimal digit byte. -/
def isDigit (b : Nat) : Bool := 48 ≤ b && b ≤ 57

/-- Split the longest digit run off the front. -/
def takeDigits : List Nat → List Nat × List Nat
  | [] => ([], [])
  | b :: rest =>
    if isDigit b then
      match takeDigits rest with
      | (ds, r) => (b :: ds, r)
    else ([], b :: rest)

/-- Value of a digit-byte run, most significant first. -/
def digitsToNat (acc : Nat) : List Nat → Nat
  | [] => acc
  | d :: ds => digitsToNat (acc * 10 + (d - 48)) ds

/-- Value of a hexadecimal digit byte, for `\uXXXX` escapes. -/
def hexVal (b : Nat) : Option Nat :=
  if isDigit b then some (b - 48)
  else if 65 ≤ b && b ≤ 70 then some (b - 55)
  else if 97 ≤ b && b ≤ 102 then some (b - 87)
  else none

/-- Fraction digits of a JSON number: after `.` at least one digit, otherwise
no fraction at all. -/
def parseFrac : List Nat → Option (List Nat × List Nat)
  | 46 :: r =>
    match takeDigits r with
    | ([], _) => none
    | (ds, rest) => some (ds, rest)
  | l => some ([], l)

/-- Exponent of a JSON number: `e`/`E`, optional sign, at least one digit;
yields 0 when no exponent marker is present. -/
def parseExponent : List Nat → Option (Int × List Nat)
  | [] => some (0, [])
  | b :: r =>
    if b == 101 || b == 69 then
      match r with
      | 43 :: r1 =>
        (match takeDigits r1 with
         | ([], _) => none
         | (ds, rest) => some ((digitsToNat 0 ds : Int), rest))
      | 45 :: r1 =>
        (match takeDigits r1 with
         | ([], _) => none
         | (ds, rest) => some (-(digitsToNat 0 ds : Int), rest))
      | r1 =>
        (match takeDigits r1 with
         | ([], _) => none
         | (ds, rest) => some ((digitsToNat 0 ds : Int), rest))
    else some (0, b :: r)

/-- JSON number starting at the head of the input: optional `-`, an integer
part with no redundant leading zero, optional fraction and exponent. -/
def parseNumber (l : List Nat) : Option (DecimalNum × List Nat) :=
  let signed := match l with
    | 45 :: r => (true, r)
    | _ => (false, l)
  match takeDigits signed.2 with
  | ([], _) => none
  | (ints, l2) =>
    if 1 < ints.length && ints.headD 0 == 48 then none
    else
      match parseFrac l2 with
      | none => none
      | some (fracs, l3) =>
        match parseExponent l3 with
        | none => none
        | some (e, l4) =>
          let mag : Int := (digitsToNat 0 (ints ++ fracs) : Int)
          some (⟨if signed.1 then -mag else mag, e - fracs.length⟩, l4)

/-- Content of a JSON string after its opening quote: raw UTF-8 scalars, the
short escapes and `\uXXXX` (a lone surrogate is refused, as `serde_json`
refuses it), no unescaped control bytes.  Fueled by remaining length. -/
def parseStringAux : Nat → List Nat → Option (List Char × List Nat)
  | 0, _ => none
  | _, [] => none
  | fuel + 1, b :: rest =>
    if b == 34 then some ([], rest)
    else if b == 92 then
      match rest with
      | [] => none
      | e :: rest2 =>
        if e == 117 then
          match rest2 with
          | h1 :: h2 :: h3 :: h4 :: rest3 =>
            match hexVal h1, hexVal h2, hexVal h3, hexVal h4 with
            | some v1, some v2, some v3, some v4 =>
              let cp := ((v1 * 16 + v2) * 16 + v3) * 16 + v4
              if 55296 ≤ cp && cp ≤ 57343 then none
              else
                (parseStringAux fuel rest3).map (fun p => (Char.ofNat cp :: p.1, p.2))
            | _, _, _, _ => none
          | _ => none
        else
          match
            (if e == 34 then some (34 : Nat)
             else if e == 92 then some 92
             else if e == 47 then some 47
             else if e == 98 then some 8
             else if e == 102 then some 12
             else if e == 110 then some 10
             else if e == 114 then some 13
             else if e == 116 then some 9
             else none) with
          | some c =>
            (parseStringAux fuel rest2).map (fun p => (Char.ofNat c :: p.1, p.2))
          | none => none
    else if b < 32 then none
    else
      match utf8DecodeOne (b :: rest) with
      | some (c, rest2) =>
        (parseStringAux fuel rest2).map (fun p => (c :: p.1, p.2))
      | none => none

/-- A whole JSON string body (after the opening quote) as a `String`. -/
def parseJString (l : List Nat) : Option (String × List Nat) :=
  (parseStringAux (l.length + 1) l).map (fun p => (String.mk p.1, p.2))

mutual

/-- One JSON value, fuel-driven recursive descent mirroring the grammar
`serde_json` accepts: object, array, string, `true`/`false`/`null`, number. -/
def parseValue : Nat → List Nat → Option (Json × List Nat)
  | 0, _ => none
  | fuel + 1, l =>
    match skipWs l with
    | [] => none
    | b :: rest =>
      if b == 123 then
        match skipWs rest with
        | 125 :: r => some (.obj [], r)
        | l2 =>
          match parseMembers fuel l2 with
          | some (ms, r) => some (.obj ms, r)
          | none => none
      else if b == 91 then
        match skipWs rest with
        | 93 :: r => some (.arr [], r)
        | l2 =>
          match parseElems fuel l2 with
          | some (es, r) => some (.arr es, r)
          | none => none
      else if b == 34 then
        match parseJString rest with
        | some (s, r) => some (.str s, r)
        | none => none
      else if b == 116 then
        match rest with
        | 114 :: 117 :: 101 :: r => some (.bool true, r)
        | _ => none
      else if b == 102 then
        match rest with
        | 97 :: 108 :: 115 :: 101 :: r => some (.bool false, r)
        | _ => none
      else if b == 110 then
        match rest with
        | 117 :: 108 :: 108 :: r => some (.null, r)
        | _ => none
      else if b == 45 || isDigit b then
        match parseNumber (b :: rest) with
        | some (n, r) => some (.num n, r)
        | none => none
      else none

/-- Elements of a non-empty JSON array, up to and including its `]`. -/
def parseElems : Nat → List Nat → Option (List Json × List Nat)
  | 0, _ => none
  | fuel + 1, l =>
    match parseValue fuel l with
    | none => none
    | some (j, r) =>
      match skipWs r with
      | 44 :: r2 =>
        (match parseElems fuel r2 with
         | some (es, r3) => some (j :: es, r3)
         | none => none)
      | 93 :: r2 => some ([j], r2)
      | _ => none

/-- Members of a non-empty JSON object, up to and including its closing
brace. -/
def parseMembers : Nat → List Nat → Option (List (String × Json) × List Nat)
  | 0, _ => none
  | fuel + 1, l =>
    match skipWs l with
    | 34 :: r =>
      (match parseJString r with
       | none => none
       | some (k, r2) =>
         match skipWs r2 with
         | 58 :: r3 =>
           (match parseValue fuel r3 with
            | none => none
            | some (v, r4) =>
              match skipWs r4 with
              | 44 :: r5 =>
                (match parseMembers fuel r5 with
                 | some (ms, r6) => some ((k, v) :: ms, r6)
                 | none => none)
              | 125 :: r5 => some ([(k, v)], r5)
              | _ => none)
         | _ => none)
    | _ => none

end

/-- Model of `serde_json` parsing a full response body: one value, possibly
surrounded by whitespace, nothing after it. -/
def parseJson (bytes : Body) : Option Json :=
  match parseValue (bytes.length + 1) bytes with
  | some (j, rest) => if skipWs rest = [] then some j else none
  | none => none

/-- Byte encoding of an ASCII string, used to write concrete response bodies;
all concrete bodies in this file are ASCII, where UTF-8 is the identity on
code points. -/
def asciiBytes (s : String) : Body := s.data.map Char.toNat

/-- One segment of the JSON path `serde_path_to_error` records while the
debugging decode paths run: a map key, a sequence index or a struct field. -/
inductive PathSeg where
  | key (k : String)
  | index (i : Nat)
  | field (f : String)
deriving DecidableEq, Repr

/-- A deserialization failure as the decoding stage reports it: the path of
the failing field (which `serde_path_to_error` exposes and the plain
`serde_json` driver keeps only inside its message) and a message. -/
structure DecodeError where
  path : List PathSeg
  msg : String
deriving DecidableEq, Repr

/-- Modelled from the spec: the enumerated status of a `StationStop`
(`responses` module, not among the repository's files).  The variant the
code calls `Station` is the spec's AtStation. -/
inductive TrainStatus where
  | Enroute
  | Station
  | Departed
  | Unknown
deriving DecidableEq, Repr

/-- Modelled from the spec: the status decode is an exhaustive match with a
catch-all arm mapping any unrecognized string to `Unknown`, never an
error. -/
def TrainStatus.fromString (s : String) : TrainStatus :=
  match s with
  | "Enroute" => .Enroute
  | "Station" => .Station
  | "Departed" => .Departed
  | _ => .Unknown

/-- Modelled from the spec: one stop of a train's itinerary (`responses`
module, not among the repository's files).  Timestamps are kept as their
raw optional strings; the claims never inspect their inner structure. -/
structure StationStop where
  code : String
  name : String
  status : TrainStatus
  arrival : Option String
  departure : Option String
  schArr : Option String
  schDep : Option String
deriving DecidableEq, Repr

/-- Modelled from the spec: a single active service run (`responses` module,
not among the repository's files). -/
structure Train where
  train_id : String
  train_num : String
  route_name : String
  origin_code : String
  origin_name : String
  destination_code : String
  destination_name : String
  stations : List StationStop
deriving DecidableEq, Repr

/-- Modelled from the spec: a fixed-location stop (`responses` module, not
among the repository's files); field set and JSON keys as the spec's §3 and
the repository's station tests exercise them. -/
structure Station where
  name : String
  code : String
  tz : String
  lat : DecimalNum
  lon : DecimalNum
  address1 : String
  address2 : String
  city : String
  state : String
  zip : String
  trains : List String
deriving DecidableEq, Repr

/-- TrainsByNumber: the decoded `/trains` response, train number to the runs
sharing it, modelled as an association list in the response's own order. -/
abbrev TrainResponse := List (String × List Train)

/-- StationsByCode: the decoded `/stations` response. -/
abbrev StationResponse := List (String × Station)

/-- First binding of a key in a JSON object's fields, the view serde's map
access gives a struct decoder. -/
def lookupField (o : List (String × Json)) (k : String) : Option Json :=
  match o with
  | [] => none
  | (k1, v) :: rest => if k1 = k then some v else lookupField rest k

/-- Required string field: missing or mistyped fails the decode, with the
failing field on the reported path. -/
def reqString (path : List PathSeg) (k : String) (o : List (String × Json)) :
    Except DecodeError String :=
  match lookupField o k with
  | some (.str s) => .ok s
  | some _ => .error ⟨path ++ [.field k], "invalid type: expected a string"⟩
  | none => .error ⟨path, "missing field " ++ k⟩

/-- Required number field. -/
def reqNumber (path : List PathSeg) (k : String) (o : List (String × Json)) :
    Except DecodeError DecimalNum :=
  match lookupField o k with
  | some (.num n) => .ok n
  | some _ => .error ⟨path ++ [.field k], "invalid type: expected a number"⟩
  | none => .error ⟨path, "missing field " ++ k⟩

/-- Optional timestamp field: absent or null decodes to `none`, never to an
error; a present non-string value fails. -/
def optString (path : List PathSeg) (k : String) (o : List (String × Json)) :
    Except DecodeError (Option String) :=
  match lookupField o k with
  | none => .ok none
  | some .null => .ok none
  | some (.str s) => .ok (some s)
  | some _ => .error ⟨path ++ [.field k], "invalid type: expected a string or null"⟩

/-- Required status field: must be a string, but every string succeeds,
through the catch-all of `TrainStatus.fromString`. -/
def reqStatus (path : List PathSeg) (k : String) (o : List (String × Json)) :
    Except DecodeError TrainStatus :=
  match lookupField o k with
  | some (.str s) => .ok (TrainStatus.fromString s)
  | some _ => .error ⟨path ++ [.field k], "invalid type: expected a string"⟩
  | none => .error ⟨path, "missing field " ++ k⟩

/-- Elements of an array of strings, each index on the path of a failure. -/
def decodeStringList (path : List PathSeg) (i : Nat) :
    List Json → Except DecodeError (List String)
  | [] => .ok []
  | .str s :: rest =>
    (decodeStringList path (i + 1) rest).map (fun ss => s :: ss)
  | _ :: _ => .error ⟨path ++ [.index i], "invalid type: expected a string"⟩

/-- Required array-of-strings field. -/
def reqStringList (path : List PathSeg) (k : String) (o : List (String × Json)) :
    Except DecodeError (List String) :=
  match lookupField o k with
  | some (.arr es) => decodeStringList (path ++ [.field k]) 0 es
  | some _ => .error ⟨path ++ [.field k], "invalid type: expected an array"⟩
  | none => .error ⟨path, "missing field " ++ k⟩

/-- Modelled from the spec: decode of one `StationStop` (`responses` module,
not among the repository's files): required code, name and status, optional
scheduled/actual arrival and departure timestamps. -/
def decodeStationStop (path : List PathSeg) (j : Json) : Except DecodeError StationStop :=
  match j with
  | .obj o =>
    (reqString path "code" o).bind fun code =>
    (reqString path "name" o).bind fun name =>
    (reqStatus path "status" o).bind fun status =>
    (optString path "arrival" o).bind fun arrival =>
    (optString path "departure" o).bind fun departure =>
    (optString path "schArr" o).bind fun schArr =>
    (optString path "schDep" o).bind fun schDep =>
    .ok ⟨code, name, status, arrival, departure, schArr, schDep⟩
  | _ => .error ⟨path, "invalid type: expected a StationStop object"⟩

/-- Stops of a train's itinerary, each index on the path of a failure. -/
def decodeStopList (path : List PathSeg) (i : Nat) :
    List Json → Except DecodeError (List StationStop)
  | [] => .ok []
  | j :: rest =>
    (decodeStationStop (path ++ [.index i]) j).bind fun s =>
    (decodeStopList path (i + 1) rest).map (fun ss => s :: ss)

/-- Modelled from the spec: decode of one `Train` (`responses` module, not
among the repository's files): the identifying and route strings are
required, `stations` is a required array of stops that may be empty. -/
def decodeTrain (path : List PathSeg) (j : Json) : Except DecodeError Train :=
  match j with
  | .obj o =>
    (reqString path "train_id" o).bind fun train_id =>
    (reqString path "train_num" o).bind fun train_num =>
    (reqString path "route_name" o).bind fun route_name =>
    (reqString path "origin_code" o).bind fun origin_code =>
    (reqString path "origin_name" o).bind fun origin_name =>
    (reqString path "destination_code" o).bind fun destination_code =>
    (reqString path "destination_name" o).bind fun destination_name =>
    ((match lookupField o "stations" with
      | some (.arr es) => decodeStopList (path ++ [.field "stations"]) 0 es
      | some _ => .error ⟨path ++ [.field "stations"], "invalid type: expected an array"⟩
      | none => .error ⟨path, "missing field stations"⟩ :
        Except DecodeError (List StationStop))).bind fun stations =>
    .ok ⟨train_id, train_num, route_name, origin_code, origin_name,
         destination_code, destination_name, stations⟩
  | _ => .error ⟨path, "invalid type: expected a Train object"⟩

/-- Runs sharing one train number, each index on the path of a failure. -/
def decodeTrainList (path : List PathSeg) (i : Nat) :
    List Json → Except DecodeError (List Train)
  | [] => .ok []
  | j :: rest =>
    (decodeTrain (path ++ [.index i]) j).bind fun t =>
    (decodeTrainList path (i + 1) rest).map (fun ts => t :: ts)

/-- Entries of the trains mapping: each key must bind an array of runs. -/
def decodeTrainEntries :
    List (String × Json) → Except DecodeError TrainResponse
  | [] => .ok []
  | (k, v) :: rest =>
    (match v with
     | .arr es => decodeTrainList [.key k] 0 es
     | _ => .error ⟨[.key k], "invalid type: expected an array"⟩).bind fun ts =>
    (decodeTrainEntries rest).map (fun ms => (k, ts) :: ms)

/-- Modelled from the spec: the `TrainResponseWrapper` decode (`responses`
module, not among the repository's files) — the bare keyed mapping from
train number to its runs. -/
def decodeTrainsWrapper (j : Json) : Except DecodeError TrainResponse :=
  match j with
  | .obj o => decodeTrainEntries o
  | _ => .error ⟨[], "invalid type: expected a map"⟩

/-- Modelled from the spec: decode of one `Station` (`responses` module, not
among the repository's files): every attribute of the spec's §3 is required,
with the JSON keys the repository's station tests exercise. -/
def decodeStation (path : List PathSeg) (j : Json) : Except DecodeError Station :=
  match j with
  | .obj o =>
    (reqString path "name" o).bind fun name =>
    (reqString path "code" o).bind fun code =>
    (reqString path "tz" o).bind fun tz =>
    (reqNumber path "lat" o).bind fun lat =>
    (reqNumber path "lon" o).bind fun lon =>
    (reqString path "address1" o).bind fun address1 =>
    (reqString path "address2" o).bind fun address2 =>
    (reqString path "city" o).bind fun city =>
    (reqString path "state" o).bind fun state =>
    (reqString path "zip" o).bind fun zip =>
    (reqStringList path "trains" o).bind fun trains =>
    .ok ⟨name, code, tz, lat, lon, address1, address2, city, state, zip, trains⟩
  | _ => .error ⟨path, "invalid type: expected a Station object"⟩

/-- Entries of the stations mapping. -/
def decodeStationEntries :
    List (String × Json) → Except DecodeError StationResponse
  | [] => .ok []
  | (k, v) :: rest =>
    (decodeStation [.key k] v).bind fun st =>
    (decodeStationEntries rest).map (fun ms => (k, st) :: ms)

/-- Modelled from the spec: the `StationResponseWrapper` decode (`responses`
module, not among the repository's files) — the bare keyed mapping from
station code to station, with the documented tolerance for an empty-array
body, which decodes to the empty mapping. -/
def decodeStationsWrapper (j : Json) : Except DecodeError StationResponse :=
  match j with
  | .obj o => decodeStationEntries o
  | .arr [] => .ok []
  | _ => .error ⟨[], "invalid type: expected a map"⟩

/-- A parse failure as the decoding stage reports it, before any field was
reached: empty path. -/
def syntaxError : DecodeError := ⟨[], "syntax error"⟩

/-- The deserialization of the plain `/trains` entry points:
`serde_json::from_slice` (which `reqwest::Response::json` runs) parses one
value, checks that only whitespace follows it (`Deserializer::end`), then
the `TrainResponseWrapper` decode. -/
def deserializeTrains (bytes : Body) : Except DecodeError TrainResponse :=
  match parseJson bytes with
  | some j => decodeTrainsWrapper j
  | none => .error syntaxError

/-- The deserialization of the plain `/stations` entry points. -/
def deserializeStations (bytes : Body) : Except DecodeError StationResponse :=
  match parseJson bytes with
  | some j => decodeStationsWrapper j
  | none => .error syntaxError

/-- The deserialization the debugging `/trains` entry points run:
`serde_path_to_error::deserialize` over `Deserializer::from_slice` reads
one value into the same `TrainResponseWrapper` and never calls
`Deserializer::end`, so whatever trails the value is not examined. -/
def deserializeTrainsDebug (bytes : Body) : Except DecodeError TrainResponse :=
  match parseValue (bytes.length + 1) bytes with
  | some (j, _) => decodeTrainsWrapper j
  | none => .error syntaxError

/-- The deserialization the debugging `/stations` entry points run: one
value through the same `StationResponseWrapper`, no trailing-content
check. -/
def deserializeStationsDebug (bytes : Body) : Except DecodeError StationResponse :=
  match parseValue (bytes.length + 1) bytes with
  | some (j, _) => decodeStationsWrapper j
  | none => .error syntaxError

/-- Default endpoint for the Amtrak API (`BASE_API_URL` in `client.rs`). -/
def BASE_API_URL : String := "https://api-v3.amtraker.com/v3"

/-- A client instance: only the configured base endpoint, no connection
state (`Client` in `client.rs`). -/
structure Client where
  base_url : String
deriving DecidableEq, Repr

/-- `Client::new`: the default Amtrak API endpoint. -/
def Client.new : Client := ⟨BASE_API_URL⟩

/-- `Client::with_base_url`. -/
def Client.with_base_url (base_url : String) : Client := ⟨base_url⟩

/-- What one `GET` of a URL yields: a transport-level failure from the send
or the body read, or the full buffered body bytes.  The network is passed to
each operation as a function from URL to outcome, so an operation's use of
it shows exactly which URL the operation requests. -/
inductive TransportOutcome where
  | failure (msg : String)
  | success (body : Body)

/-- The network as an operation sees it. -/
abbrev Net := String → TransportOutcome

/-- A `reqwest::Error`: either a transport-level failure, or — what
`reqwest::Response::json` produces when the body does not deserialize — a
decode failure wrapped inside the same error type. -/
inductive ReqwestError where
  | transport (msg : String)
  | decode (e : DecodeError)
deriving DecidableEq, Repr

/-- Model of `reqwest::Response::json::<T>()` used by the plain operations:
the transport error verbatim, or the shared deserialization of the body
bytes with its failure wrapped as a `reqwest` decode error. -/
def reqwestJson {α : Type} (deser : Body → Except DecodeError α) :
    TransportOutcome → Except ReqwestError α
  | .failure msg => .error (.transport msg)
  | .success body =>
    match deser body with
    | .ok v => .ok v
    | .error e => .error (.decode e)

/-- The error taxonomy of `errors.rs` (`Error`): `RequestFailed` holds a
`reqwest::Error` (`#[from] reqwest::Error`), `DeserializeFailed` holds a
`serde_json` error (`#[from] serde_json::error::Error`), `ApiErrorResponse`
holds the service's message text. -/
inductive Error where
  | RequestFailed (e : ReqwestError)
  | DeserializeFailed (e : DecodeError)
  | ApiErrorResponse (msg : String)
deriving DecidableEq, Repr

/-- The debugging error taxonomy of `errors.rs` (`DebuggingError`): its
`DeserializeFailed` carries the path-annotated error and the response body
text. -/
inductive DebuggingError where
  | RequestFailed (e : ReqwestError)
  | DeserializeFailed (error : DecodeError) (response : String)
  | ApiErrorResponse (msg : String)
deriving DecidableEq, Repr

/-- The `?` conversion a plain operation applies to a failed
`reqwest::Result`: `From<reqwest::Error> for Error` maps every
`reqwest::Error` — a transport failure and a wrapped decode failure
alike — to `Error::RequestFailed`. -/
def plainResult {α : Type} : Except ReqwestError α → Except Error α
  | .ok v => .ok v
  | .error e => .error (.RequestFailed e)

/-- URL of the list-trains operation: `format!("{}/trains", self.base_url)`. -/
def Client.trains_url (c : Client) : String := c.base_url ++ "/trains"

/-- URL of the get-train operation:
`format!("{}/trains/{}", self.base_url, train_identifier)`. -/
def Client.train_url (c : Client) (train_identifier : String) : String :=
  c.base_url ++ "/trains/" ++ train_identifier

/-- URL of the list-stations operation. -/
def Client.stations_url (c : Client) : String := c.base_url ++ "/stations"

/-- URL of the get-station operation. -/
def Client.station_url (c : Client) (station_code : String) : String :=
  c.base_url ++ "/stations/" ++ station_code

/-- `Client::trains`: one GET of the `/trains` URL, decoded through
`reqwest`'s own json driver, every failure surfaced through `?`. -/
def Client.trains (c : Client) (net : Net) : Except Error TrainResponse :=
  plainResult (reqwestJson deserializeTrains (net c.trains_url))

/-- `Client::train`. -/
def Client.train (c : Client) (train_identifier : String) (net : Net) :
    Except Error TrainResponse :=
  plainResult (reqwestJson deserializeTrains (net (c.train_url train_identifier)))

/-- `Client::stations`. -/
def Client.stations (c : Client) (net : Net) : Except Error StationResponse :=
  plainResult (reqwestJson deserializeStations (net c.stations_url))

/-- `Client::station`. -/
def Client.station (c : Client) (station_code : String) (net : Net) :
    Except Error StationResponse :=
  plainResult (reqwestJson deserializeStations (net (c.station_url station_code)))

/-- The body every `*_with_debugging` function of `client.rs` repeats after
its GET: a transport failure from the send or the body read surfaces
through `?` as `RequestFailed`; otherwise the buffered bytes run through
the same wrapper deserialization, whose failure is reported as
`DebuggingError::DeserializeFailed` carrying the path-annotated error and
`std::str::from_utf8(bytes).unwrap_or("Failed to convert bytes to
string")`. -/
def debugStage {α : Type} (deser : Body → Except DecodeError α) :
    TransportOutcome → Except DebuggingError α
  | .failure msg => .error (.RequestFailed (.transport msg))
  | .success body =>
    match deser body with
    | .ok v => .ok v
    | .error e => .error (.DeserializeFailed e (bodyText body))

/-- `Client::trains_with_debugging`: the same URL and the same wrapper
schema as `Client::trains`, through the debugging pipeline, whose driver
performs no trailing-content check. -/
def Client.trains_with_debugging (c : Client) (net : Net) :
    Except DebuggingError TrainResponse :=
  debugStage deserializeTrainsDebug (net c.trains_url)

/-- `Client::train_with_debugging`. -/
def Client.train_with_debugging (c : Client) (train_identifier : String)
    (net : Net) : Except DebuggingError TrainResponse :=
  debugStage deserializeTrainsDebug (net (c.train_url train_identifier))

/-- `Client::stations_with_debugging`. -/
def Client.stations_with_debugging (c : Client) (net : Net) :
    Except DebuggingError StationResponse :=
  debugStage deserializeStationsDebug (net c.stations_url)

/-- `Client::station_with_debugging`. -/
def Client.station_with_debugging (c : Client) (station_code : String)
    (net : Net) : Except DebuggingError StationResponse :=
  debugStage deserializeStationsDebug (net (c.station_url station_code))

/-- Observation used by the refinement claims: the success value of a
result, ignoring how an error was classified. -/
def successValue {ε α : Type} : Except ε α → Option α
  | .ok v => some v
  | .error _ => none

/-- Whether a plain result is the service-reported error classification. -/
def isApiError {α : Type} : Except Error α → Bool
  | .error (.ApiErrorResponse _) => true
  | _ => false

/-- Whether a debugging result is the service-reported error
classification. -/
def isApiErrorDebugging {α : Type} : Except DebuggingError α → Bool
  | .error (.ApiErrorResponse _) => true
  | _ => false

/-- Whether a plain result is the decode-failure classification of the
`Error` taxonomy. -/
def isDeserializeFailed {α : Type} : Except Error α → Bool
  | .error (.DeserializeFailed _) => true
  | _ => false

/-- Whether a plain result is `RequestFailed` wrapping a `reqwest` decode
error — how a malformed body actually surfaces from the plain operations. -/
def isRequestFailedDecode {α : Type} : Except Error α → Bool
  | .error (.RequestFailed (.decode _)) => true
  | _ => false

/-- The message text a plain error of the service-reported kind carries. -/
def apiErrorMessage : Error → Option String
  | .ApiErrorResponse msg => some msg
  | _ => none

/-- A StationStop payload with a chosen status string in front of the other
fields: lookups of every other key fall through to `o`, so varying `s`
varies exactly the status token of the payload. -/
def withStatus (o : List (String × Json)) (s : String) : Json :=
  .obj (("status", .str s) :: o)

/-- Concrete StationStop fields (beyond the status) for witnesses. -/
def demoStopFields : List (String × Json) :=
  [("code", .str "PHL"), ("name", .str "Philadelphia"), ("arrival", .null)]

/-- The stop `demoStopFields` decodes to when its status reads `Enroute`. -/
def demoStop : StationStop :=
  ⟨"PHL", "Philadelphia", .Enroute, none, none, none, none⟩

/-- A network that answers every GET with the non-JSON body `not json`. -/
def notJsonNet : Net := fun _ => .success (asciiBytes "not json")

/-- The claim that some operation, on some upstream response, returns the
service-reported error classification. -/
def produces_api_error : Prop :=
  ∃ (c : Client) (net : Net) (s : String),
    isApiError (c.trains net) = true ∨ isApiError (c.train s net) = true ∨
    isApiError (c.stations net) = true ∨ isApiError (c.station s net) = true ∨
    isApiErrorDebugging (c.trains_with_debugging net) = true ∨
    isApiErrorDebugging (c.train_with_debugging s net) = true ∨
    isApiErrorDebugging (c.stations_with_debugging net) = true ∨
    isApiErrorDebugging (c.station_with_debugging s net) = true

/-- A network that answers the default client's `/stations/ABC` GET with the
literal body `[]` and fails every other URL. -/
def emptyStationNet : Net := fun u =>
  if u = Client.new.station_url "ABC" then .success (asciiBytes "[]")
  else .failure "unexpected URL"

/-- A network whose every response body is the single byte 0xFF, which is
not valid UTF-8 and not valid JSON. -/
def invalidUtf8Net : Net := fun _ => .success [255]

/-- The body consisting of one opening brace: valid UTF-8, not valid JSON. -/
def braceBody : Body := asciiBytes "\x7b"

/-- A network whose every response body is `braceBody`. -/
def braceNet : Net := fun _ => .success braceBody

/-- The literal single-station response body of the spec's §8 and of the
repository's `test_single_station`. -/
def abeBody : String :=
  "\x7b\"ABE\":\x7b\"name\":\"Aberdeen\",\"code\":\"ABE\",\"tz\":\"America/New_York\",\"lat\":39.508447,\"lon\":-76.16326,\"address1\":\"18 East Bel Air Avenue\",\"address2\":\" \",\"city\":\"Aberdeen\",\"state\":\"MD\",\"zip\":\"21001\",\"trains\":[]\x7d\x7d"

/-- The station `abeBody` describes. -/
def abeStation : Station :=
  ⟨"Aberdeen", "ABE", "America/New_York", ⟨39508447, -6⟩, ⟨-7616326, -5⟩,
   "18 East Bel Air Avenue", " ", "Aberdeen", "MD", "21001", []⟩

/-- A network that answers the default client's `/stations` GET with
`abeBody` and fails every other URL. -/
def abeNet : Net := fun u =>
  if u = Client.new.stations_url then .success (asciiBytes abeBody)
  else .failure "unexpected URL"

/-- The empty-object body for the determinism witness. -/
def emptyObjBody : Body := asciiBytes "\x7b\x7d"

/-- A network whose every response body is the empty object. -/
def emptyObjNet : Net := fun _ => .success emptyObjBody

/-- A network that answers the default client's `/stations/ABC` GET with
the body `[]x` — a valid JSON value followed by trailing content — and
fails every other URL. -/
def trailingNet : Net := fun u =>
  if u = Client.new.station_url "ABC" then .success (asciiBytes "[]x")
  else .failure "unexpected URL"

/-- Looking a key up past one binding for a different key. -/
theorem lookupField_cons_ne (k1 k : String) (v : Json) (o : List (String × Json))
    (h : ¬(k1 = k)) : lookupField ((k1, v) :: o) k = lookupField o k := by
  simp [lookupField, h]

/-- The `?` conversion of the plain operations never yields the
decode-failure classification of the `Error` taxonomy. -/
theorem isDeserializeFailed_plainResult {α : Type} (r : Except ReqwestError α) :
    isDeserializeFailed (plainResult r) = false := by
  cases r with
  | ok v => rfl
  | error e => rfl

/-- The `?` conversion of the plain operations never yields the
service-reported classification. -/
theorem isApiError_plainResult {α : Type} (r : Except ReqwestError α) :
    isApiError (plainResult r) = false := by
  cases r with
  | ok v => rfl
  | error e => rfl

/-- The debugging pipeline never yields the service-reported
classification, whatever the outcome and the deserializer. -/
theorem isApiErrorDebugging_stage {α : Type} (deser : Body → Except DecodeError α)
    (o : TransportOutcome) :
    isApiErrorDebugging (debugStage deser o) = false := by
  cases o with
  | failure msg => rfl
  | success body =>
    cases hd : deser body <;> simp [hd, debugStage, isApiErrorDebugging]

/-- A body the end-checking parse accepts is one value followed by nothing
but whitespace; the value-only parse yields that same value. -/
theorem parseJson_some (b : Body) (j : Json) (h : parseJson b = some j) :
    ∃ r, parseValue (b.length + 1) b = some (j, r) := by
  unfold parseJson at h
  cases hp : parseValue (b.length + 1) b with
  | none => rw [hp] at h; simp at h
  | some p =>
    obtain ⟨j1, r⟩ := p
    rw [hp] at h
    simp at h
    obtain ⟨he, hj⟩ := h
    subst hj
    exact ⟨r, rfl⟩

/-- A body the plain trains deserialization accepts is also accepted, with
the same value, by the debugging driver, which merely skips the
trailing-content check. -/
theorem deserializeTrainsDebug_ok_of_plain (b : Body) (v : TrainResponse)
    (h : deserializeTrains b = .ok v) : deserializeTrainsDebug b = .ok v := by
  unfold deserializeTrains at h
  unfold deserializeTrainsDebug
  cases hp : parseJson b with
  | none => rw [hp] at h; cases h
  | some j =>
    rw [hp] at h
    obtain ⟨r, hr⟩ := parseJson_some b j hp
    rw [hr]
    exact h

/-- A body the plain stations deserialization accepts is also accepted,
with the same value, by the debugging driver. -/
theorem deserializeStationsDebug_ok_of_plain (b : Body) (v : StationResponse)
    (h : deserializeStations b = .ok v) : deserializeStationsDebug b = .ok v := by
  unfold deserializeStations at h
  unfold deserializeStationsDebug
  cases hp : parseJson b with
  | none => rw [hp] at h; cases h
  | some j =>
    rw [hp] at h
    obtain ⟨r, hr⟩ := parseJson_some b j hp
    rw [hr]
    exact h

/-- Whatever the outcome, a success of the plain pipeline is reproduced by
the debugging pipeline with an equal value, whenever the debugging
deserializer accepts everything the plain one accepts. -/
theorem successValue_plain_le_debug {α : Type}
    (dP dD : Body → Except DecodeError α)
    (hsub : ∀ b v, dP b = .ok v → dD b = .ok v) (o : TransportOutcome) :
    successValue (plainResult (reqwestJson dP o)) = none ∨
      successValue (plainResult (reqwestJson dP o)) =
        successValue (debugStage dD o) := by
  cases o with
  | failure msg => left; rfl
  | success body =>
    cases hd : dP body with
    | error e => left; simp [plainResult, reqwestJson, hd, successValue]
    | ok v =>
      right
      simp [plainResult, reqwestJson, hd, successValue, debugStage, hsub body v hd]

/-- Decoding a StationStop payload at any status string equals decoding it
at `Enroute` and replacing the status by the catch-all decode of the
string: the other fields never see the status token. -/
theorem decodeStationStop_withStatus (path : List PathSeg)
    (o : List (String × Json)) (s : String) :
    decodeStationStop path (withStatus o s) =
      (decodeStationStop path (withStatus o "Enroute")).map
        (fun v => { v with status := TrainStatus.fromString s }) := by
  have hst : ∀ t : String, reqStatus path "status" (("status", Json.str t) :: o) =
      .ok (TrainStatus.fromString t) := by
    intro t
    simp [reqStatus, lookupField]
  have hreq : ∀ (k : String) (x : Json), ¬(("status" : String) = k) →
      reqString path k (("status", x) :: o) = reqString path k o := by
    intro k x h
    simp [reqString, lookupField_cons_ne _ _ _ _ h]
  have hopt : ∀ (k : String) (x : Json), ¬(("status" : String) = k) →
      optString path k (("status", x) :: o) = optString path k o := by
    intro k x h
    simp [optString, lookupField_cons_ne _ _ _ _ h]
  simp only [decodeStationStop, withStatus, hst,
    hreq "code" _ (by decide), hreq "name" _ (by decide),
    hopt "arrival" _ (by decide), hopt "departure" _ (by decide),
    hopt "schArr" _ (by decide), hopt "schDep" _ (by decide)]
  cases reqString path "code" o with
  | error e => rfl
  | ok code =>
    cases reqString path "name" o with
    | error e => rfl
    | ok name =>
      cases optString path "arrival" o with
      | error e => rfl
      | ok arrival =>
        cases optString path "departure" o with
        | error e => rfl
        | ok departure =>
          cases optString path "schArr" o with
          | error e => rfl
          | ok schArr =>
            cases optString path "schDep" o with
            | error e => rfl
            | ok schDep => rfl

/-- C1: a response body that does not deserialize makes every plain-mode
operation surface `Error::RequestFailed` wrapping `reqwest`'s decode error
— `reqwest::Response::json` reports the serde failure as a
`reqwest::Error`, and `?` converts it through `From<reqwest::Error>` — so
the `Error::DeserializeFailed` classification the claim (and §7.2 of the
spec) describes is never produced by a plain-mode operation; the decode
failure is not distinct from the transport-failure classification in the
`Error` taxonomy. -/
theorem plain_decode_failure_surfaces_as_request_failed (c : Client) (net : Net)
    (s : String) :
    isDeserializeFailed (c.trains net) = false ∧
    isDeserializeFailed (c.train s net) = false ∧
    isDeserializeFailed (c.stations net) = false ∧
    isDeserializeFailed (c.station s net) = false ∧
    Client.new.trains notJsonNet = .error (.RequestFailed (.decode syntaxError)) ∧
    isRequestFailedDecode (Client.new.trains notJsonNet) = true :=
  ⟨isDeserializeFailed_plainResult _, isDeserializeFailed_plainResult _,
   isDeserializeFailed_plainResult _, isDeserializeFailed_plainResult _,
   rfl, rfl⟩

/-- C2 counterexample: the claim that some operation, on some upstream
response, actually produces the `ApiErrorResponse` classification is false:
no plain or debugging operation ever constructs it. -/
theorem produces_api_error_is_false : produces_api_error = False := by
  simp only [eq_iff_iff, iff_false]
  rintro ⟨c, net, s, h⟩
  rcases h with h | h | h | h | h | h | h | h
  · exact absurd h (by simp [Client.trains, isApiError_plainResult])
  · exact absurd h (by simp [Client.train, isApiError_plainResult])
  · exact absurd h (by simp [Client.stations, isApiError_plainResult])
  · exact absurd h (by simp [Client.station, isApiError_plainResult])
  · exact absurd h (by simp [Client.trains_with_debugging,
      isApiErrorDebugging_stage deserializeTrainsDebug (net c.trains_url)])
  · exact absurd h (by simp [Client.train_with_debugging,
      isApiErrorDebugging_stage deserializeTrainsDebug (net (c.train_url s))])
  · exact absurd h (by simp [Client.stations_with_debugging,
      isApiErrorDebugging_stage deserializeStationsDebug (net c.stations_url)])
  · exact absurd h (by simp [Client.station_with_debugging,
      isApiErrorDebugging_stage deserializeStationsDebug (net (c.station_url s))])

/-- C2 (amended): the error taxonomy reserves the service-reported
classification `ApiErrorResponse`, carrying the service's message text, but
no operation — plain or diagnostic — ever produces it: the client never
inspects a received body for an error envelope. -/
theorem api_error_response_reserved_never_produced (c : Client) (net : Net)
    (s msg : String) :
    apiErrorMessage (Error.ApiErrorResponse msg) = some msg ∧
    isApiError (c.trains net) = false ∧
    isApiError (c.train s net) = false ∧
    isApiError (c.stations net) = false ∧
    isApiError (c.station s net) = false ∧
    isApiErrorDebugging (c.trains_with_debugging net) = false ∧
    isApiErrorDebugging (c.train_with_debugging s net) = false ∧
    isApiErrorDebugging (c.stations_with_debugging net) = false ∧
    isApiErrorDebugging (c.station_with_debugging s net) = false :=
  ⟨rfl, isApiError_plainResult _, isApiError_plainResult _,
   isApiError_plainResult _, isApiError_plainResult _,
   isApiErrorDebugging_stage deserializeTrainsDebug (net c.trains_url),
   isApiErrorDebugging_stage deserializeTrainsDebug (net (c.train_url s)),
   isApiErrorDebugging_stage deserializeStationsDebug (net c.stations_url),
   isApiErrorDebugging_stage deserializeStationsDebug (net (c.station_url s))⟩

/-- C3 counterexample: the body `[]x` — a valid JSON value followed by
trailing content — is rejected by the plain get-station operation, whose
driver (`serde_json::from_slice`) checks end of input, yet accepted by its
diagnostic variant, whose driver (`serde_path_to_error::deserialize` over
`Deserializer::from_slice`) reads one value and never examines the rest:
the two entry points do not accept exactly the same payloads. -/
theorem plain_and_debugging_diverge_on_trailing_content :
    Client.new.station "ABC" trailingNet =
        .error (.RequestFailed (.decode syntaxError)) ∧
      Client.new.station_with_debugging "ABC" trailingNet = .ok [] :=
  ⟨rfl, rfl⟩

/-- C3 (amended): both entry points of each operation decode the same
wrapper schema, and every payload the plain entry point accepts is
accepted by the diagnostic entry point with an equal entity value; the
diagnostic driver, however, omits the plain driver's trailing-content
check, so it additionally accepts bodies that append trailing content to a
valid value — acceptance is one-directional, not exactly equal. -/
theorem debugging_accepts_all_plain_payloads (c : Client) (net : Net)
    (s : String) :
    (successValue (c.trains net) = none ∨
      successValue (c.trains net) = successValue (c.trains_with_debugging net)) ∧
    (successValue (c.train s net) = none ∨
      successValue (c.train s net) = successValue (c.train_with_debugging s net)) ∧
    (successValue (c.stations net) = none ∨
      successValue (c.stations net) = successValue (c.stations_with_debugging net)) ∧
    (successValue (c.station s net) = none ∨
      successValue (c.station s net) = successValue (c.station_with_debugging s net)) :=
  ⟨successValue_plain_le_debug deserializeTrains deserializeTrainsDebug
     deserializeTrainsDebug_ok_of_plain (net c.trains_url),
   successValue_plain_le_debug deserializeTrains deserializeTrainsDebug
     deserializeTrainsDebug_ok_of_plain (net (c.train_url s)),
   successValue_plain_le_debug deserializeStations deserializeStationsDebug
     deserializeStationsDebug_ok_of_plain (net c.stations_url),
   successValue_plain_le_debug deserializeStations deserializeStationsDebug
     deserializeStationsDebug_ok_of_plain (net (c.station_url s))⟩

/-- C4: a StationStop payload whose status string is none of `Enroute`,
`Station`, `Departed` — stated for every payload that is otherwise
well-formed, i.e. decodes when its status reads `Enroute` — still decodes,
and its decoded status is `Unknown`; the decode never fails because of the
unrecognized status token. -/
theorem unrecognized_status_decodes_to_unknown (path : List PathSeg)
    (o : List (String × Json)) (v : StationStop) (s : String)
    (hok : decodeStationStop path (withStatus o "Enroute") = .ok v)
    (h1 : s ≠ "Enroute") (h2 : s ≠ "Station") (h3 : s ≠ "Departed") :
    decodeStationStop path (withStatus o s) =
        .ok { v with status := .Unknown } ∧
      TrainStatus.fromString s = .Unknown := by
  have hu : TrainStatus.fromString s = .Unknown := by
    simp [TrainStatus.fromString, h1, h2, h3]
  refine ⟨?_, hu⟩
  rw [decodeStationStop_withStatus, hok]
  simp [Except.map, hu]

/-- C4 witness: the concrete payload `demoStopFields` with the unrecognized
status `Halted` decodes to the `Enroute` decode with status `Unknown`. -/
theorem unrecognized_status_decodes_to_unknown_witness :
    decodeStationStop [] (withStatus demoStopFields "Halted") =
        .ok { demoStop with status := .Unknown } ∧
      TrainStatus.fromString "Halted" = .Unknown :=
  unrecognized_status_decodes_to_unknown [] demoStopFields demoStop "Halted"
    rfl (by decide) (by decide) (by decide)

/-- C5: the get-station operation, answered with the literal body `[]` at
its own URL, succeeds with the empty StationsByCode mapping rather than a
decode error. -/
theorem empty_array_station_decodes_to_empty_map :
    Client.new.station "ABC" emptyStationNet = .ok [] := rfl

/-- C6 counterexample: a diagnostic call whose received body is the single
byte 0xFF fails to deserialize, and the `response` field of the returned
error is the fixed placeholder string, not the body's text — the body has
no text at all, being invalid UTF-8. -/
theorem debugging_error_placeholder_on_invalid_utf8 :
    Client.new.stations_with_debugging invalidUtf8Net =
        .error (.DeserializeFailed syntaxError "Failed to convert bytes to string") ∧
      utf8Decode [255] = none :=
  ⟨rfl, rfl⟩

/-- C6 (amended): every diagnostic-variant call whose received body fails
to deserialize returns `DeserializeFailed` carrying the decoding stage's
error — with the path at which decoding failed — together with the raw
response body text whenever the body is valid UTF-8; for a body that is not
valid UTF-8 it carries the fixed placeholder string instead. -/
theorem debugging_error_carries_path_and_body_text (c : Client) (net : Net)
    (s : String) (b : Body) (eT eS : DecodeError)
    (hnet : ∀ u, net u = .success b)
    (hT : deserializeTrainsDebug b = .error eT)
    (hS : deserializeStationsDebug b = .error eS) :
    c.trains_with_debugging net = .error (.DeserializeFailed eT (bodyText b)) ∧
    c.train_with_debugging s net = .error (.DeserializeFailed eT (bodyText b)) ∧
    c.stations_with_debugging net = .error (.DeserializeFailed eS (bodyText b)) ∧
    c.station_with_debugging s net = .error (.DeserializeFailed eS (bodyText b)) ∧
    (∀ cs, utf8Decode b = some cs → bodyText b = String.mk cs) := by
  refine ⟨?_, ?_, ?_, ?_, ?_⟩
  · simp [Client.trains_with_debugging, debugStage, hnet, hT]
  · simp [Client.train_with_debugging, debugStage, hnet, hT]
  · simp [Client.stations_with_debugging, debugStage, hnet, hS]
  · simp [Client.station_with_debugging, debugStage, hnet, hS]
  · intro cs h
    simp [bodyText, h]

/-- C6 witness: the valid-UTF-8 body of one opening brace fails to
deserialize on all four diagnostic calls, which return the error with the
body's own text. -/
theorem debugging_error_carries_path_and_body_text_witness :
    Client.new.trains_with_debugging braceNet =
        .error (.DeserializeFailed syntaxError (bodyText braceBody)) ∧
    Client.new.train_with_debugging "612-5" braceNet =
        .error (.DeserializeFailed syntaxError (bodyText braceBody)) ∧
    Client.new.stations_with_debugging braceNet =
        .error (.DeserializeFailed syntaxError (bodyText braceBody)) ∧
    Client.new.station_with_debugging "612-5" braceNet =
        .error (.DeserializeFailed syntaxError (bodyText braceBody)) ∧
    (∀ cs, utf8Decode braceBody = some cs → bodyText braceBody = String.mk cs) :=
  debugging_error_carries_path_and_body_text Client.new braceNet "612-5"
    braceBody syntaxError syntaxError (fun _ => rfl) rfl rfl

/-- C7: each operation issues its GET to exactly the concatenation of the
configured base URL and the documented path — the result is a function of
the network's answer at that URL alone — and a client constructed without
an explicit base URL carries `https://api-v3.amtraker.com/v3`. -/
theorem operations_get_exact_urls (b s : String) (net : Net) :
    (Client.with_base_url b).trains_url = b ++ "/trains" ∧
    (Client.with_base_url b).train_url s = b ++ "/trains/" ++ s ∧
    (Client.with_base_url b).stations_url = b ++ "/stations" ∧
    (Client.with_base_url b).station_url s = b ++ "/stations/" ++ s ∧
    Client.new.base_url = "https://api-v3.amtraker.com/v3" ∧
    (Client.with_base_url b).trains net =
      plainResult (reqwestJson deserializeTrains (net (b ++ "/trains"))) ∧
    (Client.with_base_url b).train s net =
      plainResult (reqwestJson deserializeTrains (net (b ++ "/trains/" ++ s))) ∧
    (Client.with_base_url b).stations net =
      plainResult (reqwestJson deserializeStations (net (b ++ "/stations"))) ∧
    (Client.with_base_url b).station s net =
      plainResult (reqwestJson deserializeStations (net (b ++ "/stations/" ++ s))) :=
  ⟨rfl, rfl, rfl, rfl, rfl, rfl, rfl, rfl, rfl⟩

/-- C8: the list-stations operation, answered with the literal
single-station body for `ABE`, yields the mapping with exactly the one
entry keyed `ABE`, whose name is `Aberdeen`, whose latitude is the decimal
39.508447 and whose trains sequence is empty. -/
theorem single_station_literal_decode :
    Client.new.stations abeNet = .ok [("ABE", abeStation)] ∧
    abeStation.name = "Aberdeen" ∧
    abeStation.lat = ⟨39508447, -6⟩ ∧
    abeStation.trains = [] :=
  ⟨rfl, rfl, rfl, rfl⟩

/-- C9: decoding is a pure function of the received bytes: two runs of any
decode entry point — across different clients and different network states
— give equal results (same success value or same error classification)
whenever the delivered bodies are equal byte sequences. -/
theorem decoding_deterministic_and_pure (c1 c2 : Client) (net1 net2 : Net)
    (b1 b2 : Body) (hb : b1 = b2)
    (h1 : net1 c1.trains_url = .success b1)
    (h2 : net2 c2.trains_url = .success b2)
    (h3 : net1 c1.stations_url = .success b1)
    (h4 : net2 c2.stations_url = .success b2) :
    deserializeTrains b1 = deserializeTrains b2 ∧
    deserializeStations b1 = deserializeStations b2 ∧
    c1.trains net1 = c2.trains net2 ∧
    c1.stations net1 = c2.stations net2 ∧
    c1.trains_with_debugging net1 = c2.trains_with_debugging net2 ∧
    c1.stations_with_debugging net1 = c2.stations_with_debugging net2 := by
  subst hb
  refine ⟨rfl, rfl, ?_, ?_, ?_, ?_⟩
  · simp [Client.trains, h1, h2]
  · simp [Client.stations, h3, h4]
  · simp [Client.trains_with_debugging, h1, h2]
  · simp [Client.stations_with_debugging, h3, h4]

/-- C9 witness: two runs against the same empty-object body agree. -/
theorem decoding_deterministic_and_pure_witness :
    deserializeTrains emptyObjBody = deserializeTrains emptyObjBody ∧
    deserializeStations emptyObjBody = deserializeStations emptyObjBody ∧
    Client.new.trains emptyObjNet = Client.new.trains emptyObjNet ∧
    Client.new.stations emptyObjNet = Client.new.stations emptyObjNet ∧
    Client.new.trains_with_debugging emptyObjNet =
      Client.new.trains_with_debugging emptyObjNet ∧
    Client.new.stations_with_debugging emptyObjNet =
      Client.new.stations_with_debugging emptyObjNet :=
  decoding_deterministic_and_pure Client.new Client.new emptyObjNet emptyObjNet
    emptyObjBody emptyObjBody rfl rfl rfl rfl rfl

/-- C10: a diagnostic-variant call whose received body fails to deserialize
and is not valid UTF-8 returns the `DeserializeFailed` error whose
`response` field is the literal placeholder `Failed to convert bytes to
string`, not the body's text. -/
theorem non_utf8_body_yields_placeholder (c : Client) (net : Net) (s : String)
    (b : Body) (eT eS : DecodeError)
    (hnet : ∀ u, net u = .success b)
    (hT : deserializeTrainsDebug b = .error eT)
    (hS : deserializeStationsDebug b = .error eS)
    (hu : utf8Decode b = none) :
    c.trains_with_debugging net =
        .error (.DeserializeFailed eT "Failed to convert bytes to string") ∧
    c.train_with_debugging s net =
        .error (.DeserializeFailed eT "Failed to convert bytes to string") ∧
    c.stations_with_debugging net =
        .error (.DeserializeFailed eS "Failed to convert bytes to string") ∧
    c.station_with_debugging s net =
        .error (.DeserializeFailed eS "Failed to convert bytes to string") := by
  have hbt : bodyText b = "Failed to convert bytes to string" := by
    simp [bodyText, hu]
  refine ⟨?_, ?_, ?_, ?_⟩
  · simp [Client.trains_with_debugging, debugStage, hnet, hT, hbt]
  · simp [Client.train_with_debugging, debugStage, hnet, hT, hbt]
  · simp [Client.stations_with_debugging, debugStage, hnet, hS, hbt]
  · simp [Client.station_with_debugging, debugStage, hnet, hS, hbt]

/-- C10 witness: the single 0xFF byte body fails to deserialize, is not
valid UTF-8, and all four diagnostic calls return the placeholder. -/
theorem non_utf8_body_yields_placeholder_witness :
    Client.new.trains_with_debugging invalidUtf8Net =
        .error (.DeserializeFailed syntaxError "Failed to convert bytes to string") ∧
    Client.new.train_with_debugging "612-5" invalidUtf8Net =
        .error (.DeserializeFailed syntaxError "Failed to convert bytes to string") ∧
    Client.new.stations_with_debugging invalidUtf8Net =
        .error (.DeserializeFailed syntaxError "Failed to convert bytes to string") ∧
    Client.new.station_with_debugging "612-5" invalidUtf8Net =
        .error (.DeserializeFailed syntaxError "Failed to convert bytes to string") :=
  non_utf8_body_yields_placeholder Client.new invalidUtf8Net "612-5" [255]
    syntaxError syntaxError (fun _ => rfl) rfl rfl rfl

end Amtrak
